import Mathlib

/-!
Verification development for the WiFi intrusion-detection engine in
`src/main.py` (class `WiFiIDS`).

The Python source is shallowly embedded as pure Lean functions:

* `NetworkPacket` / `ThreatAlert` mirror the two dataclasses.
* Python `float` timestamps, lengths and scores are modelled as exact
  rationals (`ℚ`); every claim under study is a threshold comparison,
  not a rounding question.
* Python optional ints (`dst_port`) become `Option Nat`; Python
  truthiness of such a value (`if p.dst_port:`) is `truthyPort`:
  both `None` and `0` are falsy.
* The rolling `deque(maxlen=N)` becomes a list plus `ingest`,
  which appends on the right and drops from the left when over
  capacity.
* `dict` / `defaultdict(list)` grouping preserves first-occurrence key
  order, so `extract_features` iterates the deduplicated list of source
  addresses in buffer order and takes each group as the order-preserving
  filter of the buffer.
* `time.time()` is re-evaluated by the source inside its comprehensions;
  the model passes a single evaluation time `now`, which is how the
  source behaves up to the microseconds a list comprehension takes.
* The sklearn `IsolationForest` and `StandardScaler` are external
  libraries: `ml_analysis` is parametrised by an abstract normaliser
  `normalize`, predictor `predict` and score function `decision`, and a
  trained model is represented by the batch it was fitted on
  (`fit(X)` stores `X`).  All state-machine and attribution facts
  proved below hold for every choice of these parameters.
-/

namespace AirGuard

/-- Embeds the `NetworkPacket` dataclass of `src/main.py`. -/
structure NetworkPacket where
  timestamp : ℚ
  src_ip : String
  dst_ip : String
  protocol : String
  length : Nat
  src_port : Option Nat := none
  dst_port : Option Nat := none
  flags : Option String := none
  deriving DecidableEq

/-- Embeds the `ThreatAlert` dataclass of `src/main.py`. -/
structure ThreatAlert where
  timestamp : ℚ
  threat_type : String
  severity : String
  source_ip : String
  description : String
  confidence : ℚ
  deriving DecidableEq

/-- Python truthiness of an optional port: `None` and `0` are falsy. -/
def truthyPort (o : Option Nat) : Bool :=
  o.getD 0 != 0

/-- Python `str` of an optional port, as interpolated by the f-strings of
the source (`None` prints as `"None"`). -/
def portStr (o : Option Nat) : String :=
  match o with
  | some p => toString p
  | none => "None"

/-- Embeds `deque(maxlen=cap)` together with `packet_buffer.append`
(line 229): the record is appended on the right and, when the result
exceeds the capacity, the leftmost (oldest) records are dropped.
Returns the new window and the list of evicted records. -/
def ingest (cap : Nat) (w : List NetworkPacket) (r : NetworkPacket) :
    List NetworkPacket × List NetworkPacket :=
  let w2 := w ++ [r]
  (w2.drop (w2.length - cap), w2.take (w2.length - cap))

/-- Embeds `WiFiIDS.detect_port_scan` (lines 283-294).  The early
`if not packet.dst_port: return False` guard is the outer `if`; the
comprehension over `self.packet_buffer` is the filter; the set of
destination ports of truthy-ported recent records is the `dedup`. -/
def detect_port_scan (now : ℚ) (buffer : List NetworkPacket)
    (pkt : NetworkPacket) : Bool :=
  if truthyPort pkt.dst_port then
    let recent_packets := buffer.filter
      (fun p => decide (p.src_ip = pkt.src_ip ∧ now - p.timestamp < 60))
    let unique_ports :=
      ((recent_packets.filter (fun p => truthyPort p.dst_port)).filterMap
        (fun p => p.dst_port)).dedup
    decide (20 < unique_ports.length)
  else false

/-- The fixed sensitive-port set of `WiFiIDS.detect_suspicious_port`
(lines 296-301). -/
def suspicious_ports : List Nat :=
  [22, 23, 135, 139, 445, 1433, 3389, 5432, 5900, 6379]

/-- Embeds `WiFiIDS.detect_suspicious_port` (lines 296-301):
`packet.dst_port in suspicious_ports`.  In Python `None in s` is
`False`, hence the `none` branch. -/
def detect_suspicious_port (pkt : NetworkPacket) : Bool :=
  match pkt.dst_port with
  | some p => decide (p ∈ suspicious_ports)
  | none => false

/-- Embeds `WiFiIDS.detect_ddos` (lines 303-309): count the buffer
records from the same source with age below 10 seconds and compare
against the threshold 100. -/
def detect_ddos (now : ℚ) (buffer : List NetworkPacket)
    (pkt : NetworkPacket) : Bool :=
  decide (100 < buffer.countP
    (fun p => decide (p.src_ip = pkt.src_ip ∧ now - p.timestamp < 10)))

/-- The `PORT_SCAN` alert built by `analyze_packet` (lines 254-261). -/
def portScanAlert (now : ℚ) (pkt : NetworkPacket) : ThreatAlert :=
  { timestamp := now, threat_type := "PORT_SCAN", severity := "HIGH",
    source_ip := pkt.src_ip,
    description := "Port scan detected from " ++ pkt.src_ip,
    confidence := 0.8 }

/-- The `SUSPICIOUS_PORT` alert built by `analyze_packet`
(lines 264-271). -/
def suspiciousPortAlert (now : ℚ) (pkt : NetworkPacket) : ThreatAlert :=
  { timestamp := now, threat_type := "SUSPICIOUS_PORT",
    severity := "MEDIUM", source_ip := pkt.src_ip,
    description := "Connection to suspicious port " ++ portStr pkt.dst_port
      ++ " from " ++ pkt.src_ip,
    confidence := 0.6 }

/-- The `DDOS` alert built by `analyze_packet` (lines 274-281). -/
def ddosAlert (now : ℚ) (pkt : NetworkPacket) : ThreatAlert :=
  { timestamp := now, threat_type := "DDOS", severity := "CRITICAL",
    source_ip := pkt.src_ip,
    description := "Potential DDoS attack from " ++ pkt.src_ip,
    confidence := 0.9 }

/-- Embeds `WiFiIDS.analyze_packet` (lines 251-281): the three rule
detectors run in source order (scan, then sensitive-port, then flood)
and each firing detector appends exactly one alert; the `if`s are
independent, not `elif`s. -/
def analyze_packet (now : ℚ) (buffer : List NetworkPacket)
    (pkt : NetworkPacket) : List ThreatAlert :=
  (if detect_port_scan now buffer pkt then [portScanAlert now pkt] else []) ++
  (if detect_suspicious_port pkt then [suspiciousPortAlert now pkt] else []) ++
  (if detect_ddos now buffer pkt then [ddosAlert now pkt] else [])

/-- A feature vector: four rationals, as produced per source group. -/
abbrev FVec := List ℚ

/-- A trained model, represented by the standardised batch it was fitted
on; `IsolationForest.fit(X)` is modelled as storing `X`. -/
abbrev TModel := List FVec

/-- First-occurrence order of source addresses in the buffer: the key
order of the `defaultdict` built by `extract_features` (line 362-364),
since Python dicts keep insertion order. -/
def srcOrder (buffer : List NetworkPacket) : List String :=
  (buffer.map (fun p => p.src_ip)).dedup

/-- The group of buffer records with a given source address, in buffer
order: the value stored for one key of the `defaultdict`. -/
def srcGroup (buffer : List NetworkPacket) (ip : String) :
    List NetworkPacket :=
  buffer.filter (fun p => decide (p.src_ip = ip))

/-- Python `max` of a nonempty list of rationals (the `[]` case is
unreachable in the source: groups have at least 5 records). -/
def listMax (l : List ℚ) : ℚ :=
  match l with
  | [] => 0
  | a :: r => r.foldl max a

/-- Python `min` of a nonempty list of rationals. -/
def listMin (l : List ℚ) : ℚ :=
  match l with
  | [] => 0
  | a :: r => r.foldl min a

/-- The loop body of `WiFiIDS.extract_features` (lines 366-377): skip a
group with fewer than 5 records, otherwise compute the four features
`[packet_rate, avg_packet_size, unique_ports, protocol_diversity]`.
The set comprehension `set(p.dst_port for p in packets if p.dst_port)`
keeps only truthy ports (both `None` and `0` are dropped by
`if p.dst_port`). -/
def groupFeatures (packets : List NetworkPacket) : Option FVec :=
  if packets.length < 5 then none
  else
    let ts := packets.map (fun p => p.timestamp)
    let packet_rate : ℚ :=
      (packets.length : ℚ) / max 1 (listMax ts - listMin ts)
    let avg_packet_size : ℚ :=
      (packets.map (fun p => (p.length : ℚ))).sum / (packets.length : ℚ)
    let unique_ports : ℚ :=
      (((packets.filter (fun p => truthyPort p.dst_port)).filterMap
        (fun p => p.dst_port)).dedup.length : ℚ)
    let protocol_diversity : ℚ :=
      ((packets.map (fun p => p.protocol)).dedup.length : ℚ)
    some [packet_rate, avg_packet_size, unique_ports, protocol_diversity]

/-- Embeds `WiFiIDS.extract_features` (lines 357-379): group the buffer
by source address and run `groupFeatures` over the groups in
first-occurrence order. -/
def extract_features (buffer : List NetworkPacket) : List FVec :=
  (srcOrder buffer).filterMap (fun ip => groupFeatures (srcGroup buffer ip))

/-- Restates the feature computation in the words of the specification
as amended: one vector per source group of at least 5 records, with the
distinct counts expressed as finite-set cardinalities and the
destination-port count ignoring records whose destination port is
absent or equal to 0. -/
def groupFeatures_spec (packets : List NetworkPacket) : Option FVec :=
  if packets.length < 5 then none
  else
    some [(packets.length : ℚ) /
            max 1 (listMax (packets.map (fun p => p.timestamp)) -
              listMin (packets.map (fun p => p.timestamp))),
          (packets.map (fun p => (p.length : ℚ))).sum / (packets.length : ℚ),
          (((packets.filterMap (fun p => p.dst_port)).filter
            (fun q => decide (q ≠ 0))).toFinset.card : ℚ),
          ((packets.map (fun p => p.protocol)).toFinset.card : ℚ)]

/-- The feature extraction as the amended specification words it. -/
def extract_features_spec (buffer : List NetworkPacket) : List FVec :=
  (srcOrder buffer).filterMap (fun ip => groupFeatures_spec (srcGroup buffer ip))

/-- The claim C7 taken literally: feature (3) counts the distinct
destination ports of the records whose destination port is present, so
a record whose destination port is `0` contributes the port `0`. -/
def groupFeatures_claim (packets : List NetworkPacket) : Option FVec :=
  if packets.length < 5 then none
  else
    some [(packets.length : ℚ) /
            max 1 (listMax (packets.map (fun p => p.timestamp)) -
              listMin (packets.map (fun p => p.timestamp))),
          (packets.map (fun p => (p.length : ℚ))).sum / (packets.length : ℚ),
          ((packets.filterMap (fun p => p.dst_port)).toFinset.card : ℚ),
          ((packets.map (fun p => p.protocol)).toFinset.card : ℚ)]

/-- The feature extraction as claim C7 literally words it. -/
def extract_features_claim (buffer : List NetworkPacket) : List FVec :=
  (srcOrder buffer).filterMap (fun ip => groupFeatures_claim (srcGroup buffer ip))

/-- The source addresses of the groups that survive the size-5 cut, in
order: the source of the group that produced feature vector `i` is
`featureSrcs buffer` at index `i`.  Derived from the same grouping loop
as `extract_features`. -/
def featureSrcs (buffer : List NetworkPacket) : List String :=
  (srcOrder buffer).filter
    (fun ip => decide (¬ (srcGroup buffer ip).length < 5))

/-- The alert-building loop of `WiFiIDS.ml_analysis` (lines 343-352):
`for i, (is_anomaly, score) in enumerate(zip(anomalies, anomaly_scores))`,
and for each `-1` prediction an `ANOMALY` alert attributed to
`list(self.packet_buffer)[-(len(features) - i)]`, i.e. the buffer
element at position `length - (nFeatures - i)` from the left, with
confidence `abs(score)`.  Python would raise `IndexError` (swallowed by
the enclosing `except`) when that index is out of range; the model uses
`get?` and skips, which agrees with the source on every in-range
index. -/
def mk_anomaly_alerts (now : ℚ) (buffer : List NetworkPacket)
    (nFeatures : Nat) (anomalies : List Int) (scores : List ℚ) :
    List ThreatAlert :=
  ((anomalies.zip scores).enum).filterMap (fun e =>
    if e.2.1 = -1 then
      (buffer.get? (buffer.length - (nFeatures - e.1))).map (fun pkt =>
        { timestamp := now, threat_type := "ANOMALY", severity := "MEDIUM",
          source_ip := pkt.src_ip,
          description := "Anomalous network behavior detected from "
            ++ pkt.src_ip,
          confidence := |e.2.2| })
    else none)

/-- Embeds `WiFiIDS.ml_analysis` (lines 322-355).  `model = none` is the
untrained state (`not hasattr(self.ml_model, 'offset_')`); fitting
stores the normalised batch.  `normalize` abstracts
`self.scaler.fit_transform` (refitted from the current batch each
cycle), `predict` abstracts `self.ml_model.predict` and `decision`
abstracts `self.ml_model.decision_function`.  Returns the new model
state and the emitted alerts. -/
def ml_analysis (normalize : List FVec → List FVec)
    (predict : TModel → List FVec → List Int)
    (decision : TModel → List FVec → List ℚ)
    (now : ℚ) (model : Option TModel) (buffer : List NetworkPacket) :
    Option TModel × List ThreatAlert :=
  let features := extract_features buffer
  if features.length < 10 then (model, [])
  else
    let features_scaled := normalize features
    match model with
    | none => (some features_scaled, [])
    | some m =>
        (some m, mk_anomaly_alerts now buffer features.length
          (predict m features_scaled) (decision m features_scaled))

/-- A sequence of analysis cycles, threading the model state: one call
of `ml_analysis` per buffer snapshot. -/
def run_cycles (normalize : List FVec → List FVec)
    (predict : TModel → List FVec → List Int)
    (decision : TModel → List FVec → List ℚ)
    (now : ℚ) (model : Option TModel)
    (buffers : List (List NetworkPacket)) : Option TModel :=
  buffers.foldl
    (fun st b => (ml_analysis normalize predict decision now st b).1) model

/-! Concrete inputs used by the closed theorems below. -/

/-- A TCP packet from source `A` to destination port `i + 1` at time 0. -/
def mkScanPkt (i : Nat) : NetworkPacket :=
  { timestamp := 0, src_ip := "A", dst_ip := "B", protocol := "TCP",
    length := 60, dst_port := some (i + 1) }

/-- `n` packets from source `A` to the `n` distinct ports `1, ..., n`,
all at time 0. -/
def scanBuf (n : Nat) : List NetworkPacket :=
  (List.range n).map mkScanPkt

/-- A packet from source `A` with no destination port. -/
def noPortPkt : NetworkPacket :=
  { timestamp := 0, src_ip := "A", dst_ip := "B", protocol := "TCP",
    length := 60 }

/-- A portless UDP-sized packet from source `B` at time 0. -/
def mkFloodPkt : NetworkPacket :=
  { timestamp := 0, src_ip := "B", dst_ip := "C", protocol := "UDP",
    length := 80 }

/-- `k` identical packets from source `B`, all at time 0. -/
def floodBuf (k : Nat) : List NetworkPacket :=
  List.replicate k mkFloodPkt

/-- A packet from source `C` to destination port 22 (SSH). -/
def sshPkt : NetworkPacket :=
  { timestamp := 0, src_ip := "C", dst_ip := "D", protocol := "TCP",
    length := 100, dst_port := some 22 }

/-- A packet carrying only a destination port, every other field
canonical: used to state that the sensitive-port detector depends on
the destination port alone. -/
def portOnlyPkt (o : Option Nat) : NetworkPacket :=
  { timestamp := 0, src_ip := "", dst_ip := "", protocol := "",
    length := 0, dst_port := o }

/-- A packet with timestamp `q`, for the rolling-window theorems. -/
def capPkt (q : ℚ) : NetworkPacket :=
  { timestamp := q, src_ip := "w", dst_ip := "x", protocol := "TCP",
    length := 1 }

/-- A window of three time-ordered packets (capacity 3 in the
witness). -/
def capWin : List NetworkPacket :=
  [capPkt 1, capPkt 2, capPkt 3]

/-- Packet `i` of `buf50`: fifty packets at time 0, in ten consecutive
blocks of five, from sources `s0, s1, ..., s9`. -/
def mkBuf50Pkt (i : Nat) : NetworkPacket :=
  { timestamp := 0, src_ip := "s" ++ toString (i / 5), dst_ip := "d",
    protocol := "TCP", length := 10 }

/-- A 50-packet buffer producing exactly ten feature vectors, one per
source `s0, ..., s9`, in that order. -/
def buf50 : List NetworkPacket :=
  (List.range 50).map mkBuf50Pkt

/-- A classifier marking exactly the first of ten vectors as an
outlier. -/
def constPred : TModel → List FVec → List Int :=
  fun _ _ => (-1) :: List.replicate 9 1

/-- A score function giving every one of ten vectors the score
`-1/2`. -/
def constDec : TModel → List FVec → List ℚ :=
  fun _ _ => List.replicate 10 (-(1/2))

/-- Five records from source `a` at time 0 whose destination ports are
`0`, `1`, `2`, `3` and absent: the group for claim C7's
counterexample. -/
def c7buf : List NetworkPacket :=
  [{ timestamp := 0, src_ip := "a", dst_ip := "b", protocol := "TCP",
     length := 10, dst_port := some 0 },
   { timestamp := 0, src_ip := "a", dst_ip := "b", protocol := "TCP",
     length := 10, dst_port := some 1 },
   { timestamp := 0, src_ip := "a", dst_ip := "b", protocol := "TCP",
     length := 10, dst_port := some 2 },
   { timestamp := 0, src_ip := "a", dst_ip := "b", protocol := "TCP",
     length := 10, dst_port := some 3 },
   { timestamp := 0, src_ip := "a", dst_ip := "b", protocol := "TCP",
     length := 10, dst_port := none }]

/-! Helper lemmas. -/

/-- An absent port is falsy. -/
theorem truthyPort_none : truthyPort none = false := rfl

/-- Port `0` is falsy. -/
theorem truthyPort_zero : truthyPort (some 0) = false := rfl

/-- A nonzero port is truthy. -/
theorem truthyPort_succ (k : Nat) : truthyPort (some (k + 1)) = true := rfl

/-- Python truthiness of an optional port, as a decided proposition. -/
theorem truthyPort_eq_decide (o : Option Nat) :
    truthyPort o = decide (o.getD 0 ≠ 0) := by
  cases o with
  | none => rfl
  | some v => cases v with
    | zero => rfl
    | succ k => simp [truthyPort]

/-- Filtering the records by port truthiness before projecting out the
ports is the same as projecting the ports that are present and then
discarding the zeros. -/
theorem filter_truthy_filterMap (l : List NetworkPacket) :
    (l.filter (fun p => truthyPort p.dst_port)).filterMap
      (fun p => p.dst_port) =
    (l.filterMap (fun p => p.dst_port)).filter (fun q => decide (q ≠ 0)) := by
  induction l with
  | nil => rfl
  | cons a l ih =>
    cases h : a.dst_port with
    | none =>
      simp [List.filter_cons, List.filterMap_cons, h, truthyPort_none, ih]
    | some v =>
      cases v with
      | zero =>
        simp [List.filter_cons, List.filterMap_cons, h, truthyPort_zero, ih]
      | succ k =>
        simp [List.filter_cons, List.filterMap_cons, h, truthyPort_succ, ih,
          Nat.succ_ne_zero]

/-- Once trained, a single analysis cycle keeps the model unchanged. -/
theorem ml_analysis_trained_fst (normalize : List FVec → List FVec)
    (predict : TModel → List FVec → List Int)
    (decision : TModel → List FVec → List ℚ) (now : ℚ) (m : TModel)
    (buffer : List NetworkPacket) :
    (ml_analysis normalize predict decision now (some m) buffer).1 = some m := by
  unfold ml_analysis
  by_cases h : (extract_features buffer).length < 10 <;> simp [h]

/-- C2: at capacity `C > 0`, ingesting one more record keeps the window
size at `C` and evicts exactly one record, which carries the smallest
timestamp among the records present before the insertion (the window
being time-ordered). -/
theorem ingest_at_capacity_evicts_oldest (cap : Nat) (w : List NetworkPacket)
    (r : NetworkPacket) (hcap : 0 < cap) (hlen : w.length = cap)
    (hsorted : w.Pairwise (fun a b => a.timestamp ≤ b.timestamp)) :
    (ingest cap w r).1.length = cap ∧
    ∃ e, (ingest cap w r).2 = [e] ∧ e ∈ w ∧
      ∀ p ∈ w, e.timestamp ≤ p.timestamp := by
  cases w with
  | nil => simp at hlen; omega
  | cons a t =>
    have hl : ((a :: t) ++ [r]).length - cap = 1 := by
      simp at hlen ⊢; omega
    refine ⟨?_, a, ?_, List.mem_cons_self a t, ?_⟩
    · show (((a :: t) ++ [r]).drop (((a :: t) ++ [r]).length - cap)).length = cap
      rw [hl]
      simp at hlen ⊢
      omega
    · show ((a :: t) ++ [r]).take (((a :: t) ++ [r]).length - cap) = [a]
      rw [hl]
      rfl
    · intro p hp
      rcases List.mem_cons.mp hp with h | h
      · rw [h]
      · exact (List.pairwise_cons.mp hsorted).1 p h

/-- C2 witness: a window of three time-ordered packets at capacity 3;
ingesting a fourth keeps the size at 3 and evicts the packet with the
smallest timestamp. -/
theorem ingest_at_capacity_evicts_oldest_witness :
    (ingest 3 capWin (capPkt 4)).1.length = 3 ∧
    ∃ e, (ingest 3 capWin (capPkt 4)).2 = [e] ∧ e ∈ capWin ∧
      ∀ p ∈ capWin, e.timestamp ≤ p.timestamp :=
  ingest_at_capacity_evicts_oldest 3 capWin (capPkt 4) (by decide) (by decide)
    (by decide)

set_option maxRecDepth 100000 in
unseal Rat.add Rat.sub Rat.mul Rat.inv Rat.ofScientific in
/-- C4: the flood detector fires exactly when strictly more than 100
window records share the input record's source address and have age
strictly below 10 seconds; with the concrete 101-record buffer it
fires and with the 100-record buffer it does not. -/
theorem detect_ddos_characterization :
    (∀ (now : ℚ) (buffer : List NetworkPacket) (pkt : NetworkPacket),
      detect_ddos now buffer pkt = true ↔
        100 < (buffer.filter (fun p =>
          decide (p.src_ip = pkt.src_ip ∧ now - p.timestamp < 10))).length) ∧
    detect_ddos 0 (floodBuf 101) mkFloodPkt = true ∧
    detect_ddos 0 (floodBuf 100) mkFloodPkt = false := by
  refine ⟨?_, by decide, by decide⟩
  intro now buffer pkt
  simp [detect_ddos, List.countP_eq_length_filter]

set_option maxRecDepth 100000 in
unseal Rat.add Rat.sub Rat.mul Rat.inv Rat.ofScientific in
/-- C4 witness: the general characterization applied to the concrete
101-packet flood buffer. -/
theorem detect_ddos_characterization_witness :
    detect_ddos 0 (floodBuf 101) mkFloodPkt = true :=
  (detect_ddos_characterization.1 0 (floodBuf 101) mkFloodPkt).mpr (by decide)

/-- C5: the sensitive-port detector fires exactly when the destination
port is present and belongs to the fixed ten-element set; it never
fires when the port is absent, and it depends on no field other than
the destination port (and on no window). -/
theorem detect_suspicious_port_characterization (pkt : NetworkPacket) :
    (detect_suspicious_port pkt = true ↔
      ∃ p, pkt.dst_port = some p ∧ p ∈ suspicious_ports) ∧
    detect_suspicious_port { pkt with dst_port := none } = false ∧
    detect_suspicious_port pkt =
      detect_suspicious_port (portOnlyPkt pkt.dst_port) := by
  refine ⟨?_, rfl, ?_⟩
  · cases h : pkt.dst_port with
    | none => simp [detect_suspicious_port, h]
    | some p => simp [detect_suspicious_port, h]
  · cases h : pkt.dst_port <;>
      simp [detect_suspicious_port, portOnlyPkt, h]

/-- C5 witness: a packet to port 22 fires the sensitive-port
detector, by the characterization. -/
theorem detect_suspicious_port_characterization_witness :
    detect_suspicious_port sshPkt = true :=
  (detect_suspicious_port_characterization sshPkt).1.mpr ⟨22, rfl, by decide⟩

set_option maxRecDepth 100000 in
unseal Rat.add Rat.sub Rat.mul Rat.inv Rat.ofScientific in
/-- C3 as amended: the scan detector fires exactly when the input
record's destination port is present and nonzero AND the distinct
destination ports (present and nonzero) of the same-source window
records of age below 60 seconds number strictly more than 20; with 21
same-source records to 21 distinct ports it fires, with 20 it does
not. -/
theorem detect_port_scan_characterization :
    (∀ (now : ℚ) (buffer : List NetworkPacket) (pkt : NetworkPacket),
      detect_port_scan now buffer pkt = true ↔
        pkt.dst_port.getD 0 ≠ 0 ∧
        20 < (((buffer.filter (fun p =>
            decide (p.src_ip = pkt.src_ip ∧ now - p.timestamp < 60))).filterMap
            (fun p => p.dst_port)).filter
            (fun q => decide (q ≠ 0))).toFinset.card) ∧
    detect_port_scan 0 (scanBuf 21) (mkScanPkt 20) = true ∧
    detect_port_scan 0 (scanBuf 20) (mkScanPkt 19) = false := by
  refine ⟨?_, by decide, by decide⟩
  intro now buffer pkt
  unfold detect_port_scan
  rw [List.card_toFinset, ← filter_truthy_filterMap]
  rw [truthyPort_eq_decide]
  by_cases h : pkt.dst_port.getD 0 ≠ 0
  · simp [h]
  · simp [h]

set_option maxRecDepth 100000 in
unseal Rat.add Rat.sub Rat.mul Rat.inv Rat.ofScientific in
/-- C3 witness: the amended characterization applied to the concrete
21-port scan buffer. -/
theorem detect_port_scan_characterization_witness :
    detect_port_scan 0 (scanBuf 21) (mkScanPkt 20) = true :=
  (detect_port_scan_characterization.1 0 (scanBuf 21) (mkScanPkt 20)).mpr
    (by decide)

set_option maxRecDepth 100000 in
unseal Rat.add Rat.sub Rat.mul Rat.inv Rat.ofScientific in
/-- C3 counterexample: a window holding 21 same-source records to 21
distinct destination ports within the last 60 seconds, where the
ingested record has no destination port: the distinct-port set of the
same-source recent records has 21 > 20 elements, yet the detector
returns `false`, refuting the claimed equivalence. -/
theorem detect_port_scan_portless_counterexample :
    detect_port_scan 0 (scanBuf 21 ++ [noPortPkt]) noPortPkt = false ∧
    20 < ((((scanBuf 21 ++ [noPortPkt]).filter (fun p =>
        decide (p.src_ip = noPortPkt.src_ip ∧ (0:ℚ) - p.timestamp < 60))).filterMap
        (fun p => p.dst_port)).toFinset.card) := by decide

/-- C6: the three rule detectors are evaluated in the order scan,
sensitive-port, flood; each firing detector contributes exactly one
alert with its fixed kind/severity/confidence pairing (PORT_SCAN /
HIGH / 0.8, SUSPICIOUS_PORT / MEDIUM / 0.6, DDOS / CRITICAL / 0.9);
the detectors are independent, so all firing ones alert; and every
alert carries the input record's source address and the evaluation
time. -/
theorem analyze_packet_detector_pipeline (now : ℚ)
    (buffer : List NetworkPacket) (pkt : NetworkPacket) :
    (analyze_packet now buffer pkt).map
        (fun a => (a.threat_type, a.severity, a.confidence)) =
      (if detect_port_scan now buffer pkt then
        [("PORT_SCAN", "HIGH", (0.8 : ℚ))] else []) ++
      (if detect_suspicious_port pkt then
        [("SUSPICIOUS_PORT", "MEDIUM", (0.6 : ℚ))] else []) ++
      (if detect_ddos now buffer pkt then
        [("DDOS", "CRITICAL", (0.9 : ℚ))] else []) ∧
    (analyze_packet now buffer pkt).all
      (fun a => decide (a.source_ip = pkt.src_ip ∧ a.timestamp = now)) = true := by
  cases h1 : detect_port_scan now buffer pkt <;>
    cases h2 : detect_suspicious_port pkt <;>
      cases h3 : detect_ddos now buffer pkt <;>
        simp [analyze_packet, h1, h2, h3, portScanAlert, suspiciousPortAlert,
          ddosAlert]

/-- C9: a record whose destination port is absent or `0` never fires
the scan detector and never yields a PORT_SCAN alert, whatever the
window holds. -/
theorem detect_port_scan_requires_port (now : ℚ)
    (buffer : List NetworkPacket) (pkt : NetworkPacket)
    (h : pkt.dst_port = none ∨ pkt.dst_port = some 0) :
    detect_port_scan now buffer pkt = false ∧
    (analyze_packet now buffer pkt).filter
      (fun a => decide (a.threat_type = "PORT_SCAN")) = [] := by
  have hscan : detect_port_scan now buffer pkt = false := by
    unfold detect_port_scan
    rcases h with h | h <;> rw [h] <;> rfl
  refine ⟨hscan, ?_⟩
  cases h2 : detect_suspicious_port pkt <;>
    cases h3 : detect_ddos now buffer pkt <;>
      simp [analyze_packet, hscan, h2, h3, portScanAlert, suspiciousPortAlert,
        ddosAlert]

/-- C9 witness: the portless record over a window already holding 21
distinct same-source ports within 60 seconds. -/
theorem detect_port_scan_requires_port_witness :
    detect_port_scan 0 (scanBuf 21 ++ [noPortPkt]) noPortPkt = false ∧
    (analyze_packet 0 (scanBuf 21 ++ [noPortPkt]) noPortPkt).filter
      (fun a => decide (a.threat_type = "PORT_SCAN")) = [] :=
  detect_port_scan_requires_port 0 (scanBuf 21 ++ [noPortPkt]) noPortPkt
    (Or.inl rfl)

/-- C7 as amended: feature extraction computes exactly what the
specification words say — per-source groups, groups below 5 records
dropped, rate over `max 1 span`, mean byte length, distinct
present-and-nonzero destination ports, distinct protocol tags — for
every buffer. -/
theorem extract_features_refines_spec (buffer : List NetworkPacket) :
    extract_features buffer = extract_features_spec buffer := by
  unfold extract_features extract_features_spec
  have h : groupFeatures = groupFeatures_spec := by
    funext packets
    unfold groupFeatures groupFeatures_spec
    by_cases h5 : packets.length < 5
    · simp [h5]
    · simp only [h5, if_false]
      rw [filter_truthy_filterMap, List.card_toFinset, List.card_toFinset]
  rw [h]

set_option maxRecDepth 100000 in
unseal Rat.add Rat.sub Rat.mul Rat.inv Rat.ofScientific in
/-- C7 counterexample: a five-record group whose destination ports are
`0, 1, 2, 3` and absent.  The code counts 3 distinct ports (`0` is
falsy and dropped); the claim as stated predicts 4 (port `0` is
present); the outputs differ at this buffer. -/
theorem extract_features_port_zero_counterexample :
    extract_features c7buf = [[5, 10, 3, 1]] ∧
    extract_features_claim c7buf = [[5, 10, 4, 1]] ∧
    extract_features c7buf ≠ extract_features_claim c7buf := by decide

/-- C8: the anomaly scorer is a one-way untrained-to-trained state
machine: a cycle with fewer than 10 feature vectors changes nothing and
emits nothing; the first cycle with at least 10 vectors fits the model
on the normalised batch and emits nothing; a trained cycle with at
least 10 vectors keeps the model and scores the batch against it; the
model, once fitted, survives any sequence of later cycles
unchanged. -/
theorem ml_analysis_one_way_state_machine
    (normalize : List FVec → List FVec)
    (predict : TModel → List FVec → List Int)
    (decision : TModel → List FVec → List ℚ) (now : ℚ)
    (st : Option TModel) (buffer : List NetworkPacket) :
    ((extract_features buffer).length < 10 →
      ml_analysis normalize predict decision now st buffer = (st, [])) ∧
    (st = none → 10 ≤ (extract_features buffer).length →
      ml_analysis normalize predict decision now st buffer =
        (some (normalize (extract_features buffer)), [])) ∧
    (∀ m, st = some m → 10 ≤ (extract_features buffer).length →
      ml_analysis normalize predict decision now st buffer =
        (some m, mk_anomaly_alerts now buffer (extract_features buffer).length
          (predict m (normalize (extract_features buffer)))
          (decision m (normalize (extract_features buffer))))) ∧
    (∀ m, st = some m →
      (ml_analysis normalize predict decision now st buffer).1 = some m) ∧
    (∀ (buffers : List (List NetworkPacket)) (m : TModel),
      run_cycles normalize predict decision now (some m) buffers = some m) := by
  refine ⟨?_, ?_, ?_, ?_, ?_⟩
  · intro hlt
    unfold ml_analysis
    simp [hlt]
  · intro hst hge
    subst hst
    unfold ml_analysis
    simp [Nat.not_lt_of_le hge]
  · intro m hst hge
    subst hst
    unfold ml_analysis
    simp [Nat.not_lt_of_le hge]
  · intro m hst
    subst hst
    exact ml_analysis_trained_fst normalize predict decision now m buffer
  · intro buffers
    induction buffers with
    | nil => intro m; rfl
    | cons b bs ih =>
      intro m
      show run_cycles normalize predict decision now
        ((ml_analysis normalize predict decision now (some m) b).1) bs = some m
      rw [ml_analysis_trained_fst]
      exact ih m

/-- C8 witness: an empty buffer yields no vectors, so the untrained
cycle changes nothing; and a trained model survives a cycle over
`buf50`. -/
theorem ml_analysis_one_way_state_machine_witness :
    ml_analysis (fun fs => fs) constPred constDec 0 none [] = (none, []) ∧
    run_cycles (fun fs => fs) constPred constDec 0 (some [[1]]) [buf50] =
      some [[1]] :=
  ⟨(ml_analysis_one_way_state_machine (fun fs => fs) constPred constDec 0
      none []).1 (by decide),
   (ml_analysis_one_way_state_machine (fun fs => fs) constPred constDec 0
      none []).2.2.2.2 [buf50] [[1]]⟩

set_option maxRecDepth 100000 in
unseal Rat.add Rat.sub Rat.mul Rat.inv Rat.ofScientific in
/-- C1 at a failing input: a trained cycle over `buf50` (ten feature
vectors from sources `s0, ..., s9`, in that order) in which the
classifier marks exactly vector 0 — the vector of source `s0` — as an
outlier.  The single ANOMALY alert (kind, severity and confidence as
claimed) is attributed to source `s8`, because line 345 indexes the raw
buffer as `list(self.packet_buffer)[-(len(features) - i)]` instead of
consulting any vector-to-record mapping; the claim requires `s0`. -/
theorem ml_anomaly_attribution_failing_input :
    ((ml_analysis (fun fs => fs) constPred constDec 0 (some [[1]]) buf50).2).map
        (fun a => (a.threat_type, a.severity, a.source_ip, a.confidence)) =
      [("ANOMALY", "MEDIUM", "s8", 1/2)] ∧
    featureSrcs buf50 =
      ["s0", "s1", "s2", "s3", "s4", "s5", "s6", "s7", "s8", "s9"] ∧
    ("s8" : String) ≠ "s0" := by decide

end AirGuard
